import Mathlib

/-!
# Verification of the Acts `Layer` navigation core

Shallow embedding of the `Layer` query engine declared in
`src/unnamed/part_000` (Acts `Layer.h`) and `src/Core/include/ACTS/Layers/PlaneLayer.hpp`.
The repository ships only the headers; the bodies of the query methods
(`Layer.ipp` / `Layer.cpp`) are absent, so those operations are modelled
from the specification, faithful to its §4.2–§4.7 wording and to the
search-type documentation present in the header (lines 71–77).
-/

namespace Acts

/-- A 3-vector with integer coordinates; the geometric primitives are
external collaborators, so only the data shape matters here. -/
structure V3 where
  x : Int
  y : Int
  z : Int
deriving DecidableEq, Repr

/-- Result of the external collaborator call
`intersect(position, direction) -> (point, pathLength, valid)` (spec §6). -/
structure Intersection where
  position : V3
  pathLength : Int
  valid : Bool
deriving DecidableEq, Repr

/-- A geometric surface, as seen through the narrow external interface of
spec §6: an identity, the kind attributes used by the resolve flags, an
optional detector-element handle, and the two collaborator functions
`intersect` and `isOnSurface`. -/
structure Surface where
  sid : Nat
  sensitive : Bool
  material : Bool
  passiveKind : Bool
  detectorElement : Option Nat
  intersectionEstimate : V3 → V3 → Intersection
  isOnSurface : V3 → Bool → Bool

/-- `SurfaceIntersection` (typedef `ObjectIntersection<Surface>` in the
header): struck-surface identity, intersection point, signed path length
and a validity flag. -/
structure SurfaceIntersection where
  sid : Nat
  position : V3
  pathLength : Int
  valid : Bool
deriving DecidableEq, Repr

/-- The `SurfaceArray` / SpatialSurfaceIndex of spec §4.1: `allSurfaces`
for the exhaustive fallback and `surfacesNear(point)` for local-bin
lookup. -/
structure SurfaceArray where
  surfaces : List Surface
  near : V3 → List Surface

/-- `ApproachDescriptor` (spec §4.2): the owned boundary surfaces of a
layer. -/
structure ApproachDescriptor where
  surfaces : List Surface

/-- `enum LayerType { navigation = -1, passive = 0, active = 1 }`
(header line 52). -/
inductive LayerType
  | navigation
  | passive
  | active
deriving DecidableEq, Repr

/-- The `Layer` state: representing surface (always present), optional
`SurfaceArray`, thickness, optional `ApproachDescriptor`, layer type,
material flag, and the closing-phase data (geometry identifier and
identifier→detector-element map), following the member list of the
header (lines 465–517). -/
structure Layer where
  representingSurface : Surface
  surfaceArray : Option SurfaceArray
  thickness : Int
  approachDescriptor : Option ApproachDescriptor
  layerType : LayerType
  material : Bool
  geoID : Option Nat
  detectorElements : List ((Nat × Nat) × Nat)

/-- The four search-depth levels documented in the header (lines 71–77):
`-1` exhaustive without boundary check, `0` exhaustive with boundary
check, `1` local-bin without boundary check, `2` local-bin with boundary
check. -/
inductive SearchDepth
  | exhaustiveUnchecked
  | exhaustiveChecked
  | localUnchecked
  | localChecked
deriving DecidableEq, Repr

/-- Whether the level applies the boundary check (header lines 74–77). -/
def SearchDepth.isChecked : SearchDepth → Bool
  | .exhaustiveChecked => true
  | .localChecked => true
  | _ => false

/-- Whether the level restricts candidates to the local bin
(header lines 76–77). -/
def SearchDepth.isLocalBin : SearchDepth → Bool
  | .localUnchecked => true
  | .localChecked => true
  | _ => false

/-- The query-options structure of spec §6: resolve toggles, the
boundary-check directive, path limit, search depth, and optional start/end
surfaces to exclude. -/
structure NavigationOptions where
  resolveSensitive : Bool
  resolveMaterial : Bool
  resolvePassive : Bool
  boundaryCheck : Bool
  pathLimit : Int
  searchDepth : SearchDepth
  startSurface : Option Nat
  endSurface : Option Nat
deriving DecidableEq, Repr

/-- Whether a surface kind matches at least one enabled resolve flag
(spec §4.3 step 3). -/
def surfaceMatchesResolve (opts : NavigationOptions) (s : Surface) : Bool :=
  (opts.resolveSensitive && s.sensitive) || (opts.resolveMaterial && s.material)
    || (opts.resolvePassive && s.passiveKind)

/-- The boundary check actually applied by a query: the directive is
honoured only on the boundary-checked depth levels; the unchecked levels
skip the lateral-bounds test (header lines 71–77). -/
def effectiveBoundaryCheck (opts : NavigationOptions) : Bool :=
  opts.searchDepth.isChecked && opts.boundaryCheck

/-- Modelled from the spec: candidate selection of `Layer::compatibleSurfaces`
(the body lives in the missing `Layer.ipp`). Spec §4.3 steps 1–2: with no
SpatialSurfaceIndex the only candidate is the representing surface; with an
index, local-bin levels take `surfacesNear(position)` and exhaustive levels
take every surface. -/
def Layer.candidateSurfaces (l : Layer) (pos : V3) (opts : NavigationOptions) :
    List Surface :=
  match l.surfaceArray with
  | none => [l.representingSurface]
  | some sa => if opts.searchDepth.isLocalBin then sa.near pos else sa.surfaces

/-- Modelled from the spec: `Layer::testCompatibleSurface` (declared at header
lines 378–385, body in the missing `Layer.cpp`). Spec §4.3 step 3: a candidate
is kept only if the intersection is valid, its path length lies in
`[0, pathLimit]`, it passes the boundary check when the effective directive
requests it, its kind matches an enabled resolve flag, and it is neither the
excluded start nor end surface. -/
def testCompatibleSurface (opts : NavigationOptions) (pos dir : V3) (s : Surface) :
    Option SurfaceIntersection :=
  let i := s.intersectionEstimate pos dir
  if i.valid = true ∧ 0 ≤ i.pathLength ∧ i.pathLength ≤ opts.pathLimit ∧
      (effectiveBoundaryCheck opts = true → s.isOnSurface i.position true = true) ∧
      surfaceMatchesResolve opts s = true ∧
      opts.startSurface ≠ some s.sid ∧ opts.endSurface ≠ some s.sid then
    some ⟨s.sid, i.position, i.pathLength, i.valid⟩
  else
    none

/-- Modelled from the spec: the kept (unsorted) intersections of
`Layer::compatibleSurfaces` — every candidate is intersection-tested and
filtered (spec §4.3 step 3). -/
def Layer.keptIntersections (l : Layer) (pos dir : V3) (opts : NavigationOptions) :
    List SurfaceIntersection :=
  (l.candidateSurfaces pos opts).filterMap (testCompatibleSurface opts pos dir)

/-- The sort key of spec §4.3 step 4: the absolute path length. -/
def siKey (i : SurfaceIntersection) : Nat :=
  i.pathLength.natAbs

/-- Comparison of intersections by absolute path length. -/
def siLE (a b : SurfaceIntersection) : Prop :=
  siKey a ≤ siKey b

instance : DecidableRel siLE := fun a b => Nat.decLe (siKey a) (siKey b)

instance : IsTotal SurfaceIntersection siLE :=
  ⟨fun a b => Nat.le_total (siKey a) (siKey b)⟩

instance : IsTrans SurfaceIntersection siLE :=
  ⟨fun _ _ _ hab hbc => Nat.le_trans hab hbc⟩

/-- Modelled from the spec: `Layer::compatibleSurfaces` (header lines 199–205,
body in the missing `Layer.ipp`). Spec §4.3 step 4: the kept intersections are
stably sorted ascending by absolute path length. -/
def Layer.compatibleSurfaces (l : Layer) (pos dir : V3) (opts : NavigationOptions) :
    List SurfaceIntersection :=
  List.insertionSort siLE (l.keptIntersections pos dir opts)

/-- The invalid intersection returned when no approach surface is struck
(spec §4.2: the validity flag is cleared). -/
def invalidIntersection : SurfaceIntersection :=
  ⟨0, ⟨0, 0, 0⟩, 0, false⟩

/-- Modelled from the spec: the valid approach candidates of
`ApproachDescriptor::approachSurface` (the descriptor implementation is not in
the repository slice). Spec §4.2: an owned boundary surface contributes when
its intersection is valid, has non-negative path length, and satisfies the
boundary check when `boundaryCheck` is enabled. -/
def ApproachDescriptor.validApproaches (ad : ApproachDescriptor) (pos dir : V3)
    (bcheck : Bool) : List SurfaceIntersection :=
  ad.surfaces.filterMap fun s =>
    let i := s.intersectionEstimate pos dir
    if i.valid = true ∧ 0 ≤ i.pathLength ∧
        (bcheck = true → s.isOnSurface i.position true = true) then
      some ⟨s.sid, i.position, i.pathLength, i.valid⟩
    else
      none

/-- Select the candidate with the smallest path length, seeded with `best`. -/
def pickClosest (best : SurfaceIntersection) :
    List SurfaceIntersection → SurfaceIntersection
  | [] => best
  | c :: cs => pickClosest (if c.pathLength < best.pathLength then c else best) cs

/-- Modelled from the spec: `ApproachDescriptor::approachSurface(position,
direction, boundaryCheck)` (spec §4.2): among the owned boundary surfaces,
the intersection with the smallest non-negative path length satisfying the
boundary check; the invalid intersection when no surface qualifies. -/
def ApproachDescriptor.approachSurface (ad : ApproachDescriptor) (pos dir : V3)
    (bcheck : Bool) : SurfaceIntersection :=
  match ad.validApproaches pos dir bcheck with
  | [] => invalidIntersection
  | c :: cs => pickClosest c cs

/-- Modelled from the spec: `Layer::surfaceOnApproach` (header lines 219–225,
body in the missing `Layer.ipp`). Spec §4.4: with no ApproachDescriptor the
result is the intersection with the representing surface; otherwise the query
delegates to the descriptor. -/
def Layer.surfaceOnApproach (l : Layer) (pos dir : V3) (opts : NavigationOptions) :
    SurfaceIntersection :=
  match l.approachDescriptor with
  | none =>
    let i := l.representingSurface.intersectionEstimate pos dir
    ⟨l.representingSurface.sid, i.position, i.pathLength, i.valid⟩
  | some ad => ad.approachSurface pos dir opts.boundaryCheck

/-- Modelled from the spec: the three-argument `Layer::resolve` (header lines
184–187, body in the missing `Layer.cpp`). Spec §4.7: `active` layers need
`resolveSensitive`, layers carrying material need `resolveMaterial`,
`passive`/`navigation` layers need `resolvePassive`. -/
def Layer.resolveFlags (l : Layer) (rSensitive rMaterial rPassive : Bool) : Bool :=
  (rSensitive && (l.layerType == .active)) || (rMaterial && l.material)
    || (rPassive && (l.layerType == .passive || l.layerType == .navigation))

/-- The templated `Layer::resolve(options)` whose body is in the header
(lines 168–175): it forwards the three option fields to the three-argument
overload. -/
def Layer.resolveOptions (l : Layer) (opts : NavigationOptions) : Bool :=
  l.resolveFlags opts.resolveSensitive opts.resolveMaterial opts.resolvePassive

/-- The sub-surfaces owned through the layer's SurfaceArray. -/
def Layer.subSurfaces (l : Layer) : List Surface :=
  match l.surfaceArray with
  | none => []
  | some sa => sa.surfaces

/-- Modelled from the spec: the identifier→detector-element map built by
`Layer::closeGeometry` (declared at header lines 512–513, body in the missing
`Layer.cpp`). Spec §4.6: every sub-surface carrying a detector-element
reference is visited; its identifier is derived from the layer identifier
(prefix, sub-surface index). -/
def buildDetectorElements (layerID : Nat) (l : Layer) :
    List ((Nat × Nat) × Nat) :=
  l.subSurfaces.enum.filterMap fun p =>
    p.2.detectorElement.map fun e => ((layerID, p.1), e)

/-- Modelled from the spec: `Layer::closeGeometry(layerID)` (spec §4.6):
assigns the layer its geometry identifier and re-populates the
identifier→detector-element map from the owned sub-surfaces. -/
def Layer.closeGeometry (l : Layer) (layerID : Nat) : Layer :=
  { l with
    geoID := some layerID
    detectorElements := buildDetectorElements layerID l }

/-- The base-class constructor `Layer::Layer` (header lines 440–443): the
stored fields are the arguments; the identifier and element map are empty
until closing. -/
def Layer.ctor (rep : Surface) (sa : Option SurfaceArray) (thickness : Int)
    (ad : Option ApproachDescriptor) (ltype : LayerType) : Layer :=
  ⟨rep, sa, thickness, ad, ltype, false, none, []⟩

/-- `Layer::Layer` invoked with only the required `surfaceArray` argument:
the header defaults are `thickness = 0`, `ad = nullptr`, `ltype = passive`
(lines 440–443). -/
def Layer.ctorDefault (rep : Surface) (sa : Option SurfaceArray) : Layer :=
  Layer.ctor rep sa 0 none .passive

/-- `PlaneLayer::create` invoked with only transform and bounds (carried here
by the representing surface): the factory defaults are `surfaces = nullptr`,
`thickness = 0`, `ad = nullptr`, `laytyp = active`
(PlaneLayer.hpp lines 44–54). -/
def PlaneLayer.createDefault (rep : Surface) : Layer :=
  Layer.ctor rep none 0 none .active

/-! ### Concrete fixtures used to witness the theorems -/

/-- A sensitive sub-surface struck at path length 10, inside its bounds. -/
def surfGood : Surface :=
  { sid := 1, sensitive := true, material := false, passiveKind := false
    detectorElement := some 11
    intersectionEstimate := fun _ _ => ⟨⟨0, 0, 10⟩, 10, true⟩
    isOnSurface := fun _ _ => true }

/-- A sensitive sub-surface struck at path length 5 but outside its lateral
bounds (`isOnSurface` is always false). -/
def surfBad : Surface :=
  { sid := 2, sensitive := true, material := false, passiveKind := false
    detectorElement := none
    intersectionEstimate := fun _ _ => ⟨⟨0, 0, 5⟩, 5, true⟩
    isOnSurface := fun _ _ => false }

/-- A representing surface carrying material, struck at path length 3. -/
def repSurf : Surface :=
  { sid := 9, sensitive := false, material := true, passiveKind := true
    detectorElement := none
    intersectionEstimate := fun _ _ => ⟨⟨0, 0, 3⟩, 3, true⟩
    isOnSurface := fun _ _ => true }

/-- A surface array holding the two sub-surfaces; the local bin at any point
holds only `surfGood`. -/
def saTest : SurfaceArray :=
  { surfaces := [surfGood, surfBad], near := fun _ => [surfGood] }

/-- An approach descriptor owning the two sub-surfaces. -/
def adTest : ApproachDescriptor :=
  { surfaces := [surfGood, surfBad] }

/-- An active layer with a surface array and no approach descriptor. -/
def layerTest : Layer :=
  ⟨repSurf, some saTest, 0, none, .active, false, none, []⟩

/-- An active layer with an approach descriptor. -/
def layerAD : Layer :=
  ⟨repSurf, some saTest, 0, some adTest, .active, false, none, []⟩

/-- A layer without a surface array. -/
def layerNoSA : Layer :=
  ⟨repSurf, none, 0, none, .passive, false, none, []⟩

/-- Options: resolve sensitive only, boundary-check directive enabled, but the
exhaustive-unchecked search depth. -/
def optsBC : NavigationOptions :=
  { resolveSensitive := true, resolveMaterial := false, resolvePassive := false
    boundaryCheck := true, pathLimit := 100
    searchDepth := .exhaustiveUnchecked, startSurface := none, endSurface := none }

/-- Options excluding the surface with identity 2 as start surface. -/
def optsExcl : NavigationOptions :=
  { optsBC with startSurface := some 2 }

/-- Options with a negative path limit. -/
def optsNeg : NavigationOptions :=
  { optsBC with pathLimit := -1 }

/-- Options with every resolve flag disabled. -/
def optsNoResolve : NavigationOptions :=
  { optsBC with resolveSensitive := false }

/-- The query origin used by the fixtures. -/
def pos0 : V3 := ⟨0, 0, 0⟩

/-- The query direction used by the fixtures. -/
def dirZ : V3 := ⟨0, 0, 1⟩

/-! ### Helper lemmas -/

/-- Unfolding of a successful `testCompatibleSurface` call: every property of
the spec §4.3 step 3 filter holds of the kept intersection. -/
lemma testCompatibleSurface_eq_some {opts : NavigationOptions} {pos dir : V3}
    {s : Surface} {i : SurfaceIntersection}
    (h : testCompatibleSurface opts pos dir s = some i) :
    i.sid = s.sid ∧ i.valid = true ∧ 0 ≤ i.pathLength ∧
    i.pathLength ≤ opts.pathLimit ∧
    (effectiveBoundaryCheck opts = true → s.isOnSurface i.position true = true) ∧
    surfaceMatchesResolve opts s = true ∧
    opts.startSurface ≠ some s.sid ∧ opts.endSurface ≠ some s.sid := by
  rw [testCompatibleSurface] at h
  split at h
  case isTrue hc =>
    obtain ⟨hv, h0, hl, hb, hr, hs, he⟩ := hc
    cases h
    exact ⟨rfl, hv, h0, hl, hb, hr, hs, he⟩
  case isFalse hc => exact absurd h (by simp)

/-- Stability of `orderedInsert` with respect to the sort key: inserting an
element does not reorder the elements sharing any fixed key. -/
lemma filter_key_orderedInsert (k : Nat) (a : SurfaceIntersection) :
    ∀ s : List SurfaceIntersection,
      (List.orderedInsert siLE a s).filter (fun i => siKey i == k)
        = ((a :: s).filter (fun i => siKey i == k))
  | [] => rfl
  | b :: t => by
    by_cases hab : siLE a b
    · rw [List.orderedInsert, if_pos hab]
    · rw [List.orderedInsert, if_neg hab]
      have hlt : siKey b < siKey a := Nat.lt_of_not_le hab
      have ih := filter_key_orderedInsert k a t
      by_cases ha : siKey a = k
      · have hbk : ¬siKey b = k := fun hbk =>
          Nat.ne_of_gt hlt (ha.trans hbk.symm)
        simp [List.filter_cons, ha, hbk, ih]
      · simp [List.filter_cons, ha, ih]

/-- Stability of `insertionSort` with respect to the sort key: for every key,
the sorted list and the input list agree on the subsequence of elements
carrying that key. -/
lemma filter_key_insertionSort (k : Nat) :
    ∀ l : List SurfaceIntersection,
      (List.insertionSort siLE l).filter (fun i => siKey i == k)
        = l.filter (fun i => siKey i == k)
  | [] => rfl
  | a :: l => by
    rw [List.insertionSort, filter_key_orderedInsert, List.filter_cons,
        List.filter_cons, filter_key_insertionSort k l]

/-- `pickClosest` returns the seed or one of the candidates. -/
lemma pickClosest_mem : ∀ (cs : List SurfaceIntersection)
    (best : SurfaceIntersection), pickClosest best cs = best ∨ pickClosest best cs ∈ cs
  | [], _ => Or.inl rfl
  | c :: cs, best => by
    rw [pickClosest]
    rcases pickClosest_mem cs (if c.pathLength < best.pathLength then c else best)
      with h | h
    · rw [h]
      split
      · exact Or.inr (List.mem_cons_self _ _)
      · exact Or.inl rfl
    · exact Or.inr (List.mem_cons_of_mem _ h)

/-- `pickClosest` returns a path length no larger than the seed's and than
every candidate's. -/
lemma pickClosest_le : ∀ (cs : List SurfaceIntersection)
    (best : SurfaceIntersection),
    (pickClosest best cs).pathLength ≤ best.pathLength ∧
    ∀ x ∈ cs, (pickClosest best cs).pathLength ≤ x.pathLength
  | [], _ => ⟨le_refl _, by simp⟩
  | c :: cs, best => by
    rw [pickClosest]
    obtain ⟨h1, h2⟩ :=
      pickClosest_le cs (if c.pathLength < best.pathLength then c else best)
    constructor
    · refine le_trans h1 ?_
      split
      · next hlt => exact le_of_lt hlt
      · exact le_refl _
    · intro x hx
      rcases List.mem_cons.mp hx with rfl | hx
      · refine le_trans h1 ?_
        split
        · exact le_refl _
        · next hlt => exact le_of_not_lt hlt
      · exact h2 x hx

/-- Every valid approach candidate is marked valid and has a non-negative
path length. -/
lemma validApproaches_valid {ad : ApproachDescriptor} {pos dir : V3} {bcheck : Bool}
    {x : SurfaceIntersection} (hx : x ∈ ad.validApproaches pos dir bcheck) :
    x.valid = true ∧ 0 ≤ x.pathLength := by
  rw [ApproachDescriptor.validApproaches, List.mem_filterMap] at hx
  obtain ⟨s, _, hs⟩ := hx
  dsimp only at hs
  split at hs
  case isTrue hc =>
    cases hs
    exact ⟨hc.1, hc.2.1⟩
  case isFalse => exact absurd hs (by simp)

/-! ### Claim theorems -/

/-- C1: for every (position, direction) query, the sequence returned by
`Layer::compatibleSurfaces` is a permutation of the kept intersections,
sorted in non-decreasing order of the absolute path length of its elements,
and ties are resolved by stable input order: for every key value, the output
restricted to that absolute path length equals the kept input so
restricted. -/
theorem compatibleSurfaces_sorted_stable (l : Layer) (pos dir : V3)
    (opts : NavigationOptions) :
    (l.compatibleSurfaces pos dir opts).Sorted siLE ∧
    (l.compatibleSurfaces pos dir opts).Perm (l.keptIntersections pos dir opts) ∧
    ∀ k : Nat, (l.compatibleSurfaces pos dir opts).filter (fun i => siKey i == k)
      = (l.keptIntersections pos dir opts).filter (fun i => siKey i == k) :=
  ⟨List.sorted_insertionSort siLE _, List.perm_insertionSort siLE _,
    fun k => filter_key_insertionSort k _⟩

/-- C2 counterexample: with the boundary-check directive enabled but the
exhaustive-unchecked search depth, `compatibleSurfaces` keeps the
intersection with the surface of identity 2 even though that surface fails
the boundary check at the intersection point — so a kept intersection need
not pass the boundary-check directive merely because the directive is
enabled. -/
theorem compatibleSurfaces_boundary_directive_cex :
    optsBC.boundaryCheck = true ∧
    (⟨2, ⟨0, 0, 5⟩, 5, true⟩ : SurfaceIntersection) ∈
      layerTest.compatibleSurfaces pos0 dirZ optsBC ∧
    (∀ s ∈ layerTest.candidateSurfaces pos0 optsBC, s.sid = 2 →
      s.isOnSurface ⟨0, 0, 5⟩ true = false) := by
  decide

/-- C2 (amended): every kept intersection of `Layer::compatibleSurfaces` is
valid, has path length within `[0, pathLimit]`, comes from a candidate
surface matching at least one enabled resolve flag, and passes the boundary
check whenever the effective directive — the boundary-check option combined
with a boundary-checked search-depth level — requests it. -/
theorem compatibleSurfaces_kept_filter (l : Layer) (pos dir : V3)
    (opts : NavigationOptions) (i : SurfaceIntersection)
    (hi : i ∈ l.compatibleSurfaces pos dir opts) :
    i.valid = true ∧ 0 ≤ i.pathLength ∧ i.pathLength ≤ opts.pathLimit ∧
    ∃ s ∈ l.candidateSurfaces pos opts, s.sid = i.sid ∧
      (effectiveBoundaryCheck opts = true → s.isOnSurface i.position true = true) ∧
      surfaceMatchesResolve opts s = true := by
  rw [Layer.compatibleSurfaces, List.mem_insertionSort, Layer.keptIntersections,
    List.mem_filterMap] at hi
  obtain ⟨s, hs, hts⟩ := hi
  obtain ⟨hsid, hv, h0, hl, hb, hr, _, _⟩ := testCompatibleSurface_eq_some hts
  exact ⟨hv, h0, hl, s, hs, hsid.symm, hb, hr⟩

/-- C2 witness: the kept intersection of the in-bounds sensitive surface
satisfies the amended filter properties. -/
theorem compatibleSurfaces_kept_filter_witness :
    ((⟨1, ⟨0, 0, 10⟩, 10, true⟩ : SurfaceIntersection) ∈
      layerTest.compatibleSurfaces pos0 dirZ optsBC) ∧
    ((⟨1, ⟨0, 0, 10⟩, 10, true⟩ : SurfaceIntersection).valid = true ∧
      0 ≤ (⟨1, ⟨0, 0, 10⟩, 10, true⟩ : SurfaceIntersection).pathLength ∧
      (⟨1, ⟨0, 0, 10⟩, 10, true⟩ : SurfaceIntersection).pathLength ≤ optsBC.pathLimit ∧
      ∃ s ∈ layerTest.candidateSurfaces pos0 optsBC,
        s.sid = (⟨1, ⟨0, 0, 10⟩, 10, true⟩ : SurfaceIntersection).sid ∧
        (effectiveBoundaryCheck optsBC = true →
          s.isOnSurface (⟨1, ⟨0, 0, 10⟩, 10, true⟩ : SurfaceIntersection).position true
            = true) ∧
        surfaceMatchesResolve optsBC s = true) :=
  ⟨by decide,
    compatibleSurfaces_kept_filter layerTest pos0 dirZ optsBC _ (by decide)⟩

/-- C3: a surface supplied as `startSurface` or `endSurface` in the query
options never appears among the returned intersections. -/
theorem compatibleSurfaces_excludes_start_end (l : Layer) (pos dir : V3)
    (opts : NavigationOptions) (i : SurfaceIntersection)
    (hi : i ∈ l.compatibleSurfaces pos dir opts) :
    opts.startSurface ≠ some i.sid ∧ opts.endSurface ≠ some i.sid := by
  rw [Layer.compatibleSurfaces, List.mem_insertionSort, Layer.keptIntersections,
    List.mem_filterMap] at hi
  obtain ⟨s, _, hts⟩ := hi
  obtain ⟨hsid, _, _, _, _, _, hstart, hend⟩ := testCompatibleSurface_eq_some hts
  exact ⟨hsid ▸ hstart, hsid ▸ hend⟩

/-- C3 witness: with the geometrically compatible surface of identity 2
excluded as start surface, the remaining returned intersection is not the
excluded surface. -/
theorem compatibleSurfaces_excludes_start_end_witness :
    ((⟨1, ⟨0, 0, 10⟩, 10, true⟩ : SurfaceIntersection) ∈
      layerTest.compatibleSurfaces pos0 dirZ optsExcl) ∧
    optsExcl.startSurface ≠
      some (⟨1, ⟨0, 0, 10⟩, 10, true⟩ : SurfaceIntersection).sid ∧
    optsExcl.endSurface ≠
      some (⟨1, ⟨0, 0, 10⟩, 10, true⟩ : SurfaceIntersection).sid :=
  ⟨by decide,
    compatibleSurfaces_excludes_start_end layerTest pos0 dirZ optsExcl _ (by decide)⟩

/-- C4: `Layer::surfaceOnApproach` returns the intersection with the
representing surface when the layer carries no ApproachDescriptor, and
delegates to the descriptor when one is present. -/
theorem surfaceOnApproach_cases (l : Layer) (pos dir : V3)
    (opts : NavigationOptions) :
    (l.approachDescriptor = none →
      l.surfaceOnApproach pos dir opts =
        ⟨l.representingSurface.sid,
          (l.representingSurface.intersectionEstimate pos dir).position,
          (l.representingSurface.intersectionEstimate pos dir).pathLength,
          (l.representingSurface.intersectionEstimate pos dir).valid⟩) ∧
    ∀ ad, l.approachDescriptor = some ad →
      l.surfaceOnApproach pos dir opts = ad.approachSurface pos dir opts.boundaryCheck := by
  constructor
  · intro h
    rw [Layer.surfaceOnApproach, h]
  · intro ad h
    rw [Layer.surfaceOnApproach, h]

/-- C4 witness: the fixture layer with an approach descriptor delegates, and
the fixture layer without one returns the representing-surface
intersection. -/
theorem surfaceOnApproach_cases_witness :
    layerAD.surfaceOnApproach pos0 dirZ optsBC =
      adTest.approachSurface pos0 dirZ optsBC.boundaryCheck ∧
    layerTest.surfaceOnApproach pos0 dirZ optsBC =
      ⟨layerTest.representingSurface.sid,
        (layerTest.representingSurface.intersectionEstimate pos0 dirZ).position,
        (layerTest.representingSurface.intersectionEstimate pos0 dirZ).pathLength,
        (layerTest.representingSurface.intersectionEstimate pos0 dirZ).valid⟩ :=
  ⟨(surfaceOnApproach_cases layerAD pos0 dirZ optsBC).2 adTest rfl,
    (surfaceOnApproach_cases layerTest pos0 dirZ optsBC).1 rfl⟩

/-- C5: `ApproachDescriptor::approachSurface` returns, among the owned
boundary surfaces, a valid intersection with the smallest non-negative path
length satisfying the boundary check, and a `SurfaceIntersection` with the
validity flag cleared when no owned surface qualifies; it is a total
function, so it never fails with an error. -/
theorem approachSurface_min_or_invalid (ad : ApproachDescriptor) (pos dir : V3)
    (bcheck : Bool) :
    (ad.validApproaches pos dir bcheck = [] →
      ad.approachSurface pos dir bcheck = invalidIntersection ∧
      (ad.approachSurface pos dir bcheck).valid = false) ∧
    (ad.validApproaches pos dir bcheck ≠ [] →
      ad.approachSurface pos dir bcheck ∈ ad.validApproaches pos dir bcheck ∧
      (ad.approachSurface pos dir bcheck).valid = true ∧
      0 ≤ (ad.approachSurface pos dir bcheck).pathLength ∧
      ∀ x ∈ ad.validApproaches pos dir bcheck,
        (ad.approachSurface pos dir bcheck).pathLength ≤ x.pathLength) := by
  constructor
  · intro h
    have happ : ad.approachSurface pos dir bcheck = invalidIntersection := by
      simp only [ApproachDescriptor.approachSurface, h]
    exact ⟨happ, by rw [happ]; rfl⟩
  · intro h
    obtain ⟨c, cs, hcs⟩ := List.exists_cons_of_ne_nil h
    have happ : ad.approachSurface pos dir bcheck = pickClosest c cs := by
      simp only [ApproachDescriptor.approachSurface, hcs]
    have hmem2 : ad.approachSurface pos dir bcheck ∈ ad.validApproaches pos dir bcheck := by
      rw [happ, hcs]
      rcases pickClosest_mem cs c with h1 | h1
      · rw [h1]; exact List.mem_cons_self _ _
      · exact List.mem_cons_of_mem _ h1
    obtain ⟨hv, h0⟩ := validApproaches_valid hmem2
    refine ⟨hmem2, hv, h0, ?_⟩
    intro x hx
    rw [hcs] at hx
    rw [happ]
    rcases List.mem_cons.mp hx with rfl | hx
    · exact (pickClosest_le cs x).1
    · exact (pickClosest_le cs c).2 x hx

/-- C5 witness: with the boundary check enabled, the fixture descriptor has a
single qualifying surface and returns its intersection, minimal among the
qualifying candidates. -/
theorem approachSurface_min_or_invalid_witness :
    (adTest.validApproaches pos0 dirZ true ≠ []) ∧
    (adTest.approachSurface pos0 dirZ true ∈ adTest.validApproaches pos0 dirZ true ∧
      (adTest.approachSurface pos0 dirZ true).valid = true ∧
      0 ≤ (adTest.approachSurface pos0 dirZ true).pathLength ∧
      ∀ x ∈ adTest.validApproaches pos0 dirZ true,
        (adTest.approachSurface pos0 dirZ true).pathLength ≤ x.pathLength) :=
  ⟨by decide, (approachSurface_min_or_invalid adTest pos0 dirZ true).2 (by decide)⟩

/-- C6: a negative `pathLimit` makes `Layer::compatibleSurfaces` return the
empty sequence — an empty result, not an error; the query functions of this
development are total, so no fault crosses the query boundary. -/
theorem compatibleSurfaces_neg_pathLimit_empty (l : Layer) (pos dir : V3)
    (opts : NavigationOptions) (h : opts.pathLimit < 0) :
    l.compatibleSurfaces pos dir opts = [] := by
  have hk : l.keptIntersections pos dir opts = [] := by
    rw [Layer.keptIntersections, List.filterMap_eq_nil_iff]
    intro s _
    rw [testCompatibleSurface, if_neg]
    intro hc
    obtain ⟨_, h0, hl, _⟩ := hc
    omega
  rw [Layer.compatibleSurfaces, hk]
  rfl

/-- C6 witness: the fixture query with `pathLimit = -1` returns the empty
sequence. -/
theorem compatibleSurfaces_neg_pathLimit_empty_witness :
    optsNeg.pathLimit < 0 ∧ layerTest.compatibleSurfaces pos0 dirZ optsNeg = [] :=
  ⟨by decide,
    compatibleSurfaces_neg_pathLimit_empty layerTest pos0 dirZ optsNeg (by decide)⟩

/-- C7: candidate selection follows the four search-depth levels — with a
surface array, local-bin levels restrict candidates to `surfacesNear(position)`
and exhaustive levels take every surface, checked levels apply the
boundary-check directive and unchecked levels drop it; without a surface
array the only candidate is the representing surface, and when that surface
matches no enabled resolve flag the search is empty. -/
theorem candidateSurfaces_depth_policy (l : Layer) (pos dir : V3)
    (opts : NavigationOptions) :
    (l.surfaceArray = none → l.candidateSurfaces pos opts = [l.representingSurface]) ∧
    (∀ sa, l.surfaceArray = some sa →
      (opts.searchDepth.isLocalBin = true →
        l.candidateSurfaces pos opts = sa.near pos) ∧
      (opts.searchDepth.isLocalBin = false →
        l.candidateSurfaces pos opts = sa.surfaces)) ∧
    (opts.searchDepth.isChecked = false → effectiveBoundaryCheck opts = false) ∧
    (opts.searchDepth.isChecked = true →
      effectiveBoundaryCheck opts = opts.boundaryCheck) ∧
    (l.surfaceArray = none → surfaceMatchesResolve opts l.representingSurface = false →
      l.compatibleSurfaces pos dir opts = []) := by
  refine ⟨?_, ?_, ?_, ?_, ?_⟩
  · intro h
    rw [Layer.candidateSurfaces, h]
  · intro sa h
    constructor
    · intro hl
      rw [Layer.candidateSurfaces, h]
      simp [hl]
    · intro hl
      rw [Layer.candidateSurfaces, h]
      simp [hl]
  · intro h
    rw [effectiveBoundaryCheck, h, Bool.false_and]
  · intro h
    rw [effectiveBoundaryCheck, h, Bool.true_and]
  · intro h hr
    have ht : testCompatibleSurface opts pos dir l.representingSurface = none := by
      rw [testCompatibleSurface, if_neg]
      intro hc
      rw [hr] at hc
      exact absurd hc.2.2.2.2.1 (by simp)
    have hk : l.keptIntersections pos dir opts = [] := by
      rw [Layer.keptIntersections, Layer.candidateSurfaces, h]
      simp [List.filterMap_cons, ht]
    rw [Layer.compatibleSurfaces, hk]
    rfl

/-- C7 witness: the fixture layer without a surface array has the
representing surface as only candidate, and with all resolve flags disabled
the search is empty. -/
theorem candidateSurfaces_depth_policy_witness :
    layerNoSA.candidateSurfaces pos0 optsNoResolve = [layerNoSA.representingSurface] ∧
    layerNoSA.compatibleSurfaces pos0 dirZ optsNoResolve = [] :=
  ⟨(candidateSurfaces_depth_policy layerNoSA pos0 dirZ optsNoResolve).1 rfl,
    (candidateSurfaces_depth_policy layerNoSA pos0 dirZ optsNoResolve).2.2.2.2 rfl
      (by decide)⟩

/-- C8: closing a layer twice with two different identifier prefixes yields
exactly the state of a single closing with the second prefix, and every entry
of the resulting identifier→detector-element map carries the second prefix —
no stale or merged entries from the first closing survive. -/
theorem closeGeometry_reclose (l : Layer) (p1 p2 : Nat) :
    (l.closeGeometry p1).closeGeometry p2 = l.closeGeometry p2 ∧
    ∀ kv ∈ ((l.closeGeometry p1).closeGeometry p2).detectorElements, kv.1.1 = p2 := by
  constructor
  · rfl
  · intro kv hkv
    simp only [Layer.closeGeometry, buildDetectorElements] at hkv
    rw [List.mem_filterMap] at hkv
    obtain ⟨p, _, hp⟩ := hkv
    rw [Option.map_eq_some'] at hp
    obtain ⟨e, _, he⟩ := hp
    rw [← he]

/-- C8 witness: closing the fixture layer with prefixes 3 then 7 leaves the
map of a single closing with 7, containing the detector element keyed by
prefix 7. -/
theorem closeGeometry_reclose_witness :
    ((layerTest.closeGeometry 3).closeGeometry 7 = layerTest.closeGeometry 7) ∧
    ((((7, 0), 11) : (Nat × Nat) × Nat) ∈
      ((layerTest.closeGeometry 3).closeGeometry 7).detectorElements) ∧
    ((((7, 0), 11) : (Nat × Nat) × Nat).1.1 = 7) :=
  ⟨(closeGeometry_reclose layerTest 3 7).1, by decide,
    (closeGeometry_reclose layerTest 3 7).2 ((7, 0), 11) (by decide)⟩

/-- C9: the templated `Layer::resolve(options)` returns exactly the boolean
of the three-argument overload applied to the three option fields — the two
entry points are equivalent. -/
theorem resolve_entry_points_equivalent (l : Layer) (opts : NavigationOptions) :
    l.resolveOptions opts =
      l.resolveFlags opts.resolveSensitive opts.resolveMaterial opts.resolvePassive :=
  rfl

/-- C10: the base-class constructor defaults are thickness 0, no approach
descriptor and layer type `passive`, while the `PlaneLayer::create` factory
defaults the type to `active` with thickness 0, no surface array and no
approach descriptor. -/
theorem construction_defaults (rep : Surface) (sa : Option SurfaceArray) :
    (Layer.ctorDefault rep sa).thickness = 0 ∧
    (Layer.ctorDefault rep sa).approachDescriptor = none ∧
    (Layer.ctorDefault rep sa).layerType = LayerType.passive ∧
    (PlaneLayer.createDefault rep).layerType = LayerType.active ∧
    (PlaneLayer.createDefault rep).thickness = 0 ∧
    (PlaneLayer.createDefault rep).surfaceArray = none ∧
    (PlaneLayer.createDefault rep).approachDescriptor = none :=
  ⟨rfl, rfl, rfl, rfl, rfl, rfl, rfl⟩

end Acts
